import Mathlib

/-!
# Verification of the voiceagent SIP/RTP stack

Shallow embedding of the audio transcoder (`AudioTranscoder`), the RTP
media bridge (`RTPBridge`) and the SIP client (`VivPhoneSIPClient`) of the
voiceagent repository, together with theorems settling the specification
claims about them.

Buffers are modelled as `List Nat` of byte values, 16-bit PCM samples as
`Int`, machine arithmetic with explicit `% 2^w`, and the stateful bridge
and client as explicit state-passing functions.
-/

set_option maxRecDepth 100000

set_option maxHeartbeats 1000000

namespace VoiceAgent

/-! ## Byte and 16-bit integer helpers (Node `Buffer` semantics) -/

/-- Interpret two bytes (little-endian) as a signed 16-bit integer,
as `Buffer.readInt16LE` does. -/
def toInt16 (lo hi : Nat) : Int :=
  let u := (lo % 256) + 256 * (hi % 256)
  if u < 32768 then (u : Int) else (u : Int) - 65536

/-- Read a signed 16-bit little-endian value at byte offset `i`
(out-of-range bytes read as 0, mirroring a zero-filled `Buffer`). -/
def readInt16LE (buf : List Nat) (i : Nat) : Int :=
  toInt16 (buf.getD i 0) (buf.getD (i + 1) 0)

/-- Two's-complement 16-bit representation of a signed value, as stored by
`Buffer.writeInt16LE`. -/
def toUInt16Repr (v : Int) : Nat :=
  (v.emod 65536).toNat

/-- Little-endian byte pair written by `Buffer.writeInt16LE`. -/
def int16LEBytes (v : Int) : List Nat :=
  let u := toUInt16Repr v
  [u % 256, u / 256]

/-! ## AudioTranscoder (src/unnamed/part_006)

The mu-law compression/expansion tables are built by the class static
initializer; we embed the per-entry computation as functions of the
index. -/

/-- Exponent search loop of the encoder table initializer:
`for (let mask = 0x4000; (sample & mask) === 0 && exponent > 0; exponent--, mask >>= 1);`
starting from `exponent = 7`, `mask = 0x4000`. -/
def muLawExpGo : Nat → Nat → Nat → Nat
  | 0, _, _ => 0
  | e + 1, mask, a => if a &&& mask = 0 then muLawExpGo e (mask / 2) a else e + 1

/-- Segment exponent the encoder assigns to a biased magnitude. -/
def muLawExponent (a : Nat) : Nat :=
  muLawExpGo 7 0x4000 a

/-- Entry `v + 32768` of `pcmToMuLawTable`: mu-law encoding of the 16-bit
PCM sample `v` (source lines 27-42). `~x & 0xFF` is `0xFF ^^^ x` for a
byte-sized `x`. -/
def muLawEncodeSample (v : Int) : Nat :=
  let sign : Nat := if v < 0 then 0x80 else 0x00
  let s1 : Nat := v.natAbs + 132
  let s : Nat := if s1 > 32635 then 32635 else s1
  let e := muLawExponent s
  let mantissa := (s >>> (e + 3)) &&& 0x0F
  0xFF ^^^ (sign ||| (e <<< 4) ||| mantissa)

/-- Entry `i` of `muLawToPcmTable`: the decoder's expansion of mu-law byte
`i` (source lines 14-25). -/
def muLawDecodeSample (i : Nat) : Int :=
  let mu := 0xFF ^^^ (i &&& 0xFF)
  let sign := mu &&& 0x80
  let e := (mu &&& 0x70) >>> 4
  let mantissa := mu &&& 0x0F
  let sample0 : Int := ((mantissa <<< (e + 3) : Nat) : Int) + 132
  let sample : Int := sample0 + (if e > 0 then ((1 <<< (e + 2) : Nat) : Int) else 0)
  if sign ≠ 0 then 132 - sample else sample - 132

/-- The mu-law quantization step at amplitude `v`: the width `2^(e+3)` of
the encoder segment containing `v` (spec-side definition, used to state
the round-trip error bound of the claim). -/
def muLawStep (v : Int) : Int :=
  let s1 := v.natAbs + 132
  let s := if s1 > 32635 then 32635 else s1
  ((1 <<< (muLawExponent s + 3) : Nat) : Int)

/-- `AudioTranscoder.pcm16ToMuLaw8` with the default gain 0.8: average
each pair of samples, scale by 0.8 (= 4/5, modelled in exact arithmetic:
`Math.floor(((s1+s2)/2) * 0.8)` becomes `⌊(s1+s2)·2/5⌋`), clamp to the
Int16 range, look up the encode table. -/
def pcm16ToMuLaw8 (pcmBuffer : List Nat) : List Nat :=
  let numSamples := pcmBuffer.length / 2
  let targetSamples := numSamples / 2
  (List.range targetSamples).map (fun i =>
    let sample1 := readInt16LE pcmBuffer (i * 4)
    let sample2 := readInt16LE pcmBuffer (i * 4 + 2)
    let averagedPcm := Int.fdiv ((sample1 + sample2) * 2) 5
    let clamped := max (-32768) (min 32767 averagedPcm)
    muLawEncodeSample clamped)

/-- Sequential `writeInt16LE` of a sample list into a byte buffer
(the decode loop of `muLaw8ToPcm16`, lines 74-77). -/
def writePcmLE : List Int → List Nat
  | [] => []
  | v :: rest => int16LEBytes v ++ writePcmLE rest

/-- `AudioTranscoder.resample8To16` (lines 85-100): for each 8 kHz sample
emit the sample and a linear interpolation with the next one; the output
`Buffer` is allocated at `pcm8.length * 2` bytes, so any tail beyond the
written region stays zero. -/
def resample8To16 (pcm8 : List Nat) : List Nat :=
  let numSamples := pcm8.length / 2
  let core := (List.range numSamples).flatMap (fun i =>
    let current := readInt16LE pcm8 (i * 2)
    let next := if i < numSamples - 1 then readInt16LE pcm8 ((i + 1) * 2) else current
    let interpolated := Int.fdiv (current + next) 2
    int16LEBytes current ++ int16LEBytes interpolated)
  core ++ List.replicate (pcm8.length * 2 - core.length) 0

/-- `AudioTranscoder.muLaw8ToPcm16` (lines 73-79): expand each mu-law byte
through the decode table into an 8 kHz PCM16 buffer, then resample to
16 kHz. -/
def muLaw8ToPcm16 (muLawBuffer : List Nat) : List Nat :=
  resample8To16 (writePcmLE (muLawBuffer.map muLawDecodeSample))

/-! ## RTPBridge (src/src/services/sip/rtp-bridge.ts)

The bridge's mutable fields become a state record; `dgram` socket effects
are modelled as state flags and returned packets. -/

/-- Mutable state of an `RTPBridge` instance. `socketOpen` models whether
`socket.close()` has been called; `pacerTimer` whether a timer is
scheduled. The timestamp is an `Int` because the JS update
`(this.timestamp + payload.length) & 0xFFFFFFFF` is a 32-bit *signed*
operation (ToInt32) and stores a negative value past 2^31. -/
structure RTPState where
  remoteAddress : Option String
  remotePort : Option Nat
  sequenceNumber : Nat
  timestamp : Int
  ssrc : Nat
  isRunning : Bool
  audioBuffer : List Nat
  pacerTimer : Bool
  socketOpen : Bool
  packetCount : Nat
  receiveCount : Nat
deriving DecidableEq, Repr

/-- ECMA-262 ToInt32: reduce mod 2^32 into the signed range
[-2^31, 2^31). A JS bitwise `&` applies this to both operands and its
result, and `0xFFFFFFFF` coerces to -1, so `x & 0xFFFFFFFF` is
`ToInt32 x`, not `x % 2^32`. -/
def toInt32 (x : Int) : Int :=
  (x + 2147483648).emod 4294967296 - 2147483648

/-- Big-endian byte pair written by `Buffer.writeUInt16BE`. -/
def be16 (n : Nat) : List Nat :=
  [n / 256 % 256, n % 256]

/-- Big-endian byte quadruple written by `Buffer.writeUInt32BE`. -/
def be32 (n : Nat) : List Nat :=
  [n / 16777216 % 256, n / 65536 % 256, n / 256 % 256, n % 256]

/-- `RTPBridge.sendRTPPacket` (lines 160-191): build the 12-byte RTP
header (V=2 P=0 X=0 CC=0, M=0 PT=0, current sequence number, timestamp,
SSRC, all big-endian), append the payload, send it, then advance the
sequence number by `(seq + 1) & 0xFFFF` and the timestamp by
`(timestamp + payload.length) & 0xFFFFFFFF`, which is ToInt32 of the sum
and goes negative past 2^31; the send-success callback increments
`packetCount`. `Buffer.writeUInt16BE`/`writeUInt32BE` validate their
argument and throw `ERR_OUT_OF_RANGE` outside [0, 2^16-1] / [0, 2^32-1]:
`none` models that exception (reachable once the stored timestamp has
gone negative). On success, returns the new state and the transmitted
packet. -/
def sendRTPPacket (s : RTPState) (payload : List Nat) : Option (RTPState × List Nat) :=
  if s.sequenceNumber ≤ 65535 ∧ 0 ≤ s.timestamp ∧ s.timestamp ≤ 4294967295 then
    let packet := 0x80 :: 0x00 ::
      (be16 s.sequenceNumber ++ be32 s.timestamp.toNat ++ be32 s.ssrc ++ payload)
    some ({ s with
        packetCount := s.packetCount + 1,
        sequenceNumber := (s.sequenceNumber + 1) % 65536,
        timestamp := toInt32 (s.timestamp + payload.length) },
      packet)
  else none

/-- One tick of `RTPBridge.startPacer` (lines 120-152): do nothing if the
bridge is stopped; hold off while no packet has ever been sent and the
buffer holds fewer than 480 bytes; otherwise, if at least 160 bytes are
buffered, dequeue exactly 160 and transmit them (a shorter non-empty
buffer only logs starvation). Returns the new state and the packet sent
this tick, if any; `none` models the `writeUInt32BE` range exception
escaping the tick (nothing catches it, so no further tick is
scheduled). -/
def pacerTick (s : RTPState) : Option (RTPState × Option (List Nat)) :=
  if ¬ s.isRunning then some (s, none)
  else if s.packetCount = 0 ∧ s.audioBuffer.length < 480 then some (s, none)
  else if 160 ≤ s.audioBuffer.length then
    match sendRTPPacket { s with audioBuffer := s.audioBuffer.drop 160 } (s.audioBuffer.take 160) with
    | some r => some (r.1, some r.2)
    | none => none
  else some (s, none)

/-- JS truthiness of an optional number: `undefined` and `0` are falsy. -/
def jsTruthyNat : Option Nat → Bool
  | none => false
  | some n => n ≠ 0

/-- JS truthiness of an optional string: `undefined`, `null` and `""` are
falsy. -/
def jsTruthyStr : Option String → Bool
  | none => false
  | some str => str ≠ ""

/-- `RTPBridge.sendAudio` (lines 98-106): return unchanged unless the
bridge is running and a remote address and port are set; otherwise
transcode the PCM16 input to mu-law and append it to the send buffer. -/
def sendAudio (s : RTPState) (pcm16 : List Nat) : RTPState :=
  if ¬ (s.isRunning ∧ jsTruthyStr s.remoteAddress ∧ jsTruthyNat s.remotePort) then s
  else { s with audioBuffer := s.audioBuffer ++ pcm16ToMuLaw8 pcm16 }

/-- `RTPBridge.handleRTPPacket` (lines 66-92): drop datagrams shorter than
12 bytes; read the payload type from the low 7 bits of header byte 1 and
drop anything that is not PCMU (type 0); otherwise decode the payload and
emit it as the inbound audio frame, counting the packet. Returns the new
state and the emitted frame, if any. -/
def handleRTPPacket (s : RTPState) (packet : List Nat) : RTPState × Option (List Nat) :=
  if packet.length < 12 then (s, none)
  else
    let payloadType := packet.getD 1 0 &&& 0x7F
    if payloadType ≠ 0 then (s, none)
    else
      let payload := packet.drop 12
      let pcm16 := muLaw8ToPcm16 payload
      ({ s with receiveCount := s.receiveCount + 1 }, some pcm16)

/-- `RTPBridge.stop` (lines 207-216): clear the running flag, cancel any
pacer timer, close the socket and empty the audio buffer. `socket.close()`
is called unconditionally, and Node's dgram socket throws
`ERR_SOCKET_DGRAM_NOT_RUNNING` when it is already closed: `none` models
that exception escaping `stop` (the running flag and timer were already
cleared when it throws, and the buffer is never cleared). -/
def stop (s : RTPState) : Option RTPState :=
  if s.socketOpen then
    some { s with isRunning := false, pacerTimer := false, socketOpen := false, audioBuffer := [] }
  else none

/-! ## VivPhoneSIPClient (src/unnamed/part_005)

Per-call mutable state and the effects of `handleSIPResponse`, modelled as
a transition on the call record plus a record of observable effects
(events emitted, messages sent, media-bridge teardown). -/

/-- Events the client emits on its `EventEmitter` interface. -/
inductive SIPEvent where
  | ringing
  | connected
  | failed (statusCode : Nat)
  | ended
deriving DecidableEq, Repr

/-- The entry stored in `activeCalls` for one call (fields touched by the
response handler). `lastAuthCSeq` starts out `undefined` (`none`). -/
structure SIPCall where
  phoneNumber : String
  cseq : Nat
  authAttempts : Nat
  lastAuthCSeq : Option Nat
deriving DecidableEq, Repr

/-- Observable outcome of one `handleSIPResponse` invocation: the call
entry afterwards (`none` when deleted), the client's global
`callSequence` counter afterwards, the events emitted, whether an ACK was
sent, whether an authenticated INVITE was resent, and whether the call's
RTP bridge was stopped. -/
structure HandleResult where
  call : Option SIPCall
  callSequence : Nat
  events : List SIPEvent
  ackSent : Bool
  inviteResent : Bool
  bridgeStopped : Bool
deriving DecidableEq, Repr

/-- Result leaving everything untouched. -/
def noEffect (call : SIPCall) (callSequence : Nat) : HandleResult :=
  { call := some call, callSequence := callSequence, events := [],
    ackSent := false, inviteResent := false, bridgeStopped := false }

/-- `VivPhoneSIPClient.endCall` (lines 443-490): send BYE (incrementing
`callSequence`), stop the call's RTP bridge, close its socket, delete the
call entry and emit `ended`. -/
def endCall (callSequence : Nat) : HandleResult :=
  { call := none, callSequence := callSequence + 1, events := [SIPEvent.ended],
    ackSent := false, inviteResent := false, bridgeStopped := true }

/-- The 401/407 arm of `handleSIPResponse` (lines 217-236) followed by
`handleAuthentication` (lines 324-398): ACK the response, then — only if
fewer than 3 auth attempts were made and the challenge's CSeq passes the
duplicate guard `(!call.lastAuthCSeq || respCSeq > call.lastAuthCSeq)`
(JS truthiness: an unset or zero `lastAuthCSeq` passes) — count the
attempt, remember the CSeq and re-handle authentication, which resends an
authenticated INVITE with a fresh CSeq when the response carries a
`WWW-Authenticate`/`Proxy-Authenticate` Digest header (`hasAuthHeader`)
and otherwise returns without sending. A failed guard only logs
`Ignoring duplicate or too many auth challenges`. -/
def handleAuthChallenge (call : SIPCall) (callSequence : Nat) (respCSeq : Nat)
    (hasAuthHeader : Bool) : HandleResult :=
  if call.authAttempts < 3 ∧
      (¬ jsTruthyNat call.lastAuthCSeq ∨ respCSeq > call.lastAuthCSeq.getD 0) then
    let call1 := { call with authAttempts := call.authAttempts + 1, lastAuthCSeq := some respCSeq }
    if hasAuthHeader then
      { call := some { call1 with cseq := callSequence + 1 },
        callSequence := callSequence + 1, events := [],
        ackSent := true, inviteResent := true, bridgeStopped := false }
    else
      { noEffect call1 callSequence with ackSent := true }
  else
    { noEffect call callSequence with ackSent := true }

/-- `VivPhoneSIPClient.handleSIPResponse` (lines 184-248) for a call that
is present in `activeCalls`: dispatch on the status code. 100 logs; 180
emits `ringing`; 183 only handles SDP; 200 emits `connected` and ACKs;
401/407 go through the authentication arm; any code ≥ 300 emits `failed`
and ends the call (stopping its media bridge); anything else is ignored. -/
def handleSIPResponse (statusCode : Nat) (respCSeq : Nat) (hasAuthHeader : Bool)
    (call : SIPCall) (callSequence : Nat) : HandleResult :=
  if statusCode = 100 then noEffect call callSequence
  else if statusCode = 180 then { noEffect call callSequence with events := [SIPEvent.ringing] }
  else if statusCode = 183 then noEffect call callSequence
  else if statusCode = 200 then
    { noEffect call callSequence with events := [SIPEvent.connected], ackSent := true }
  else if statusCode = 401 ∨ statusCode = 407 then
    handleAuthChallenge call callSequence respCSeq hasAuthHeader
  else if 300 ≤ statusCode then
    { endCall callSequence with events := SIPEvent.failed statusCode :: (endCall callSequence).events }
  else noEffect call callSequence

/-! ## MD5 (RFC 1321)

`handleAuthentication` computes its digest with Node's
`crypto.createHash('md5')`; that library call is embedded here as the
standard MD5 algorithm over byte lists, with 32-bit words as `Nat` reduced
`% 2^32`. -/

/-- Per-round left-rotation amounts of MD5. -/
def md5Shifts : List Nat :=
  [7, 12, 17, 22, 7, 12, 17, 22, 7, 12, 17, 22, 7, 12, 17, 22,
   5, 9, 14, 20, 5, 9, 14, 20, 5, 9, 14, 20, 5, 9, 14, 20,
   4, 11, 16, 23, 4, 11, 16, 23, 4, 11, 16, 23, 4, 11, 16, 23,
   6, 10, 15, 21, 6, 10, 15, 21, 6, 10, 15, 21, 6, 10, 15, 21]

/-- Sine-derived round constants of MD5 (`⌊|sin(i+1)|·2^32⌋`). -/
def md5K : List Nat :=
  [0xd76aa478, 0xe8c7b756, 0x242070db, 0xc1bdceee,
   0xf57c0faf, 0x4787c62a, 0xa8304613, 0xfd469501,
   0x698098d8, 0x8b44f7af, 0xffff5bb1, 0x895cd7be,
   0x6b901122, 0xfd987193, 0xa679438e, 0x49b40821,
   0xf61e2562, 0xc040b340, 0x265e5a51, 0xe9b6c7aa,
   0xd62f105d, 0x02441453, 0xd8a1e681, 0xe7d3fbc8,
   0x21e1cde6, 0xc33707d6, 0xf4d50d87, 0x455a14ed,
   0xa9e3e905, 0xfcefa3f8, 0x676f02d9, 0x8d2a4c8a,
   0xfffa3942, 0x8771f681, 0x6d9d6122, 0xfde5380c,
   0xa4beea44, 0x4bdecfa9, 0xf6bb4b60, 0xbebfbc70,
   0x289b7ec6, 0xeaa127fa, 0xd4ef3085, 0x04881d05,
   0xd9d4d039, 0xe6db99e5, 0x1fa27cf8, 0xc4ac5665,
   0xf4292244, 0x432aff97, 0xab9423a7, 0xfc93a039,
   0x655b59c3, 0x8f0ccc92, 0xffeff47d, 0x85845dd1,
   0x6fa87e4f, 0xfe2ce6e0, 0xa3014314, 0x4e0811a1,
   0xf7537e82, 0xbd3af235, 0x2ad7d2bb, 0xeb86d391]

/-- 32-bit left rotation. -/
def rotl32 (x n : Nat) : Nat :=
  ((x <<< n) ||| (x >>> (32 - n))) % 4294967296

/-- 32-bit bitwise complement. -/
def not32 (x : Nat) : Nat :=
  0xFFFFFFFF ^^^ (x % 4294967296)

/-- Little-endian 32-bit word from 4 bytes of the message block. -/
def md5Word (block : List Nat) (g : Nat) : Nat :=
  block.getD (4 * g) 0 + 256 * block.getD (4 * g + 1) 0 +
    65536 * block.getD (4 * g + 2) 0 + 16777216 * block.getD (4 * g + 3) 0

/-- One of the 64 MD5 rounds applied to the state `(A, B, C, D)`. -/
def md5Round (block : List Nat) (st : Nat × Nat × Nat × Nat) (i : Nat) :
    Nat × Nat × Nat × Nat :=
  let a := st.1
  let b := st.2.1
  let c := st.2.2.1
  let d := st.2.2.2
  let fg : Nat × Nat :=
    if i < 16 then ((b &&& c) ||| (not32 b &&& d), i)
    else if i < 32 then ((d &&& b) ||| (not32 d &&& c), (5 * i + 1) % 16)
    else if i < 48 then (b ^^^ c ^^^ d, (3 * i + 5) % 16)
    else (c ^^^ (b ||| not32 d), (7 * i) % 16)
  let f := (fg.1 + a + md5K.getD i 0 + md5Word block fg.2) % 4294967296
  (d, (b + rotl32 f (md5Shifts.getD i 0)) % 4294967296, b, c)

/-- Process one 64-byte block, adding the round result into the running
state mod 2^32. -/
def md5Block (st : Nat × Nat × Nat × Nat) (block : List Nat) :
    Nat × Nat × Nat × Nat :=
  let r := (List.range 64).foldl (md5Round block) st
  ((st.1 + r.1) % 4294967296, (st.2.1 + r.2.1) % 4294967296,
   (st.2.2.1 + r.2.2.1) % 4294967296, (st.2.2.2 + r.2.2.2) % 4294967296)

/-- 8-byte little-endian encoding of the message bit length. -/
def md5LenBytes (bitLen : Nat) : List Nat :=
  (List.range 8).map (fun i => bitLen / 256 ^ i % 256)

/-- MD5 padding: a 0x80 byte, zeros to 56 mod 64, then the 64-bit
little-endian bit length of the original message. -/
def md5Pad (msg : List Nat) : List Nat :=
  let padLen := (64 + 56 - (msg.length + 1) % 64) % 64
  msg ++ 0x80 :: List.replicate padLen 0 ++ md5LenBytes (msg.length * 8 % 18446744073709551616)

/-- 4-byte little-endian decomposition of a 32-bit word. -/
def le32Bytes (x : Nat) : List Nat :=
  [x % 256, x / 256 % 256, x / 65536 % 256, x / 16777216 % 256]

/-- The MD5 digest (16 bytes) of a byte list. -/
def md5 (msg : List Nat) : List Nat :=
  let padded := md5Pad msg
  let numBlocks := padded.length / 64
  let final := (List.range numBlocks).foldl
    (fun st i => md5Block st ((padded.drop (64 * i)).take 64))
    (0x67452301, 0xefcdab89, 0x98badcfe, 0x10325476)
  le32Bytes final.1 ++ le32Bytes final.2.1 ++ le32Bytes final.2.2.1 ++ le32Bytes final.2.2.2

/-- Lowercase hexadecimal digit. -/
def hexDigit (n : Nat) : Char :=
  if n < 10 then Char.ofNat (48 + n) else Char.ofNat (87 + n)

/-- Lowercase hex string of a byte list, as `digest('hex')` returns. -/
def bytesToHex (bytes : List Nat) : String :=
  String.mk (bytes.flatMap (fun b => [hexDigit (b / 16 % 16), hexDigit (b % 16)]))

/-- Bytes of an ASCII string, as `hash.update(string)` consumes it. -/
def strBytes (s : String) : List Nat :=
  s.data.map Char.toNat

/-- Hex MD5 digest of a string:
`crypto.createHash('md5').update(s).digest('hex')`. -/
def md5Hex (s : String) : String :=
  bytesToHex (md5 (strBytes s))

/-! ## Digest authentication (part_005 lines 347-371) -/

/-- The digest `response` value computed by `handleAuthentication`:
`HA1 = MD5(username:realm:password)`, `HA2 = MD5(INVITE:uri)`; with
`qop=auth` the response is `MD5(HA1:nonce:00000001:cnonce:auth:HA2)`
(`cnonce` is 8 random bytes in hex, taken here as a parameter), otherwise
`MD5(HA1:nonce:HA2)`. -/
def computeDigestResponse (username password realm nonce uri : String)
    (qop : Option String) (cnonce : String) : String :=
  let ha1 := md5Hex (username ++ ":" ++ realm ++ ":" ++ password)
  let ha2 := md5Hex ("INVITE" ++ ":" ++ uri)
  if qop = some "auth" then
    md5Hex (ha1 ++ ":" ++ nonce ++ ":" ++ "00000001" ++ ":" ++ cnonce ++ ":" ++ "auth" ++ ":" ++ ha2)
  else
    md5Hex (ha1 ++ ":" ++ nonce ++ ":" ++ ha2)

/-- Modelled from the spec: the RFC 2617 digest-response formula as the
specification states it, to be compared with the code's computation.
With `HA1 = MD5(username:realm:password)` and `HA2 = MD5(INVITE:requestURI)`,
the response is `MD5(HA1:nonce:nc:cnonce:auth:HA2)` with `nc = 00000001`
when `qop = auth`, and `MD5(HA1:nonce:HA2)` otherwise. -/
def rfc2617DigestResponse (username password realm nonce uri : String)
    (qop : Option String) (cnonce : String) : String :=
  let ha1 := md5Hex (username ++ ":" ++ realm ++ ":" ++ password)
  let ha2 := md5Hex ("INVITE:" ++ uri)
  if qop = some "auth" then
    md5Hex (ha1 ++ ":" ++ nonce ++ ":00000001:" ++ cnonce ++ ":auth:" ++ ha2)
  else
    md5Hex (ha1 ++ ":" ++ nonce ++ ":" ++ ha2)

/-! ## Concrete states used by witnesses -/

/-- A started bridge with a remote destination, an empty send buffer and
no packet sent yet. -/
def idleBridge : RTPState :=
  ⟨some "10.0.0.1", some 4000, 0, 0, 7, true, [], true, true, 0, 0⟩

/-- A started bridge holding exactly one packet's worth (160 bytes) of
audio while no packet has been sent yet. -/
def stalledBridge : RTPState :=
  { idleBridge with audioBuffer := List.replicate 160 0 }

/-- `stalledBridge` after its first packet has been sent. -/
def pacedBridge : RTPState :=
  { stalledBridge with packetCount := 1 }

/-- The session state reached after 13421772 transmitted packets
(timestamp 160 × 13421772 = 2147483520, the last multiple of 160 below
2^31; sequence number 13421772 mod 65536 = 52428), with two packets'
worth of buffered audio. -/
def overflowBridge : RTPState :=
  ⟨some "10.0.0.1", some 4000, 52428, 2147483520, 7, true, List.replicate 320 0, true, true, 13421772, 0⟩

/-- The state `overflowBridge` reaches after its next transmission: the
stored timestamp is ToInt32(2147483680) = -2147483616. -/
def overflowedBridge : RTPState :=
  { overflowBridge with
      audioBuffer := List.replicate 160 0
      sequenceNumber := 52429
      timestamp := -2147483616
      packetCount := 13421773 }

/-- A stopped bridge. -/
def stoppedBridge : RTPState :=
  { idleBridge with isRunning := false }

/-! ## Helper lemmas -/

theorem writePcmLE_length (l : List Int) : (writePcmLE l).length = 2 * l.length := by
  induction l with
  | nil => rfl
  | cons v rest ih => simp [writePcmLE, int16LEBytes, ih]; omega

theorem length_flatMap_const {α β : Type} (l : List α) (f : α → List β) (k : Nat)
    (h : ∀ a ∈ l, (f a).length = k) : (l.flatMap f).length = l.length * k := by
  induction l with
  | nil => simp
  | cons a t ih =>
      simp only [List.flatMap_cons, List.length_append, List.length_cons,
        h a (List.mem_cons_self a t)]
      rw [ih (fun b hb => h b (List.mem_cons_of_mem a hb))]
      ring

theorem resample8To16_length (pcm8 : List Nat) :
    (resample8To16 pcm8).length = pcm8.length * 2 := by
  rw [resample8To16]
  rw [List.length_append, List.length_replicate,
    length_flatMap_const _ _ 4 (fun a _ => by simp [int16LEBytes])]
  rw [List.length_range]
  omega

/-- Concatenating the literal pieces of the qop=auth digest input around
the nc field. -/
theorem colon_nc_colon (x : String) :
    ":" ++ ("00000001" ++ (":" ++ x)) = ":00000001:" ++ x := by
  rw [← String.append_assoc, ← String.append_assoc]
  rfl

/-- Concatenating the literal pieces of the qop=auth digest input around
the auth field. -/
theorem colon_auth_colon (x : String) :
    ":" ++ ("auth" ++ (":" ++ x)) = ":auth:" ++ x := by
  rw [← String.append_assoc, ← String.append_assoc]
  rfl

/-! ## Claim theorems -/

/-- C1: the mu-law round trip is claimed to stay within the quantization
step at each amplitude, with the decode table the inverse expansion of the
standard compression curve. The code violates this: amplitude 500 encodes
to mu-law byte 220, which the decode table expands to only 112 (the
decoder shifts only the mantissa, not the 132 bias), an error of 388
whereas the segment's quantization step is 32. The full pipeline shows the
same values: the PCM16 pair (625, 625) averages and gain-scales to 500,
encodes to byte 220 and decodes back to samples of 112. -/
theorem mulaw_decode_breaks_roundtrip_bound :
    muLawEncodeSample 500 = 220 ∧
    muLawDecodeSample 220 = 112 ∧
    muLawStep 500 = 32 ∧
    ¬ |muLawDecodeSample (muLawEncodeSample 500) - 500| ≤ muLawStep 500 ∧
    pcm16ToMuLaw8 [113, 2, 113, 2] = [220] ∧
    muLaw8ToPcm16 [220] = [112, 0, 112, 0] := by
  refine ⟨by decide, by decide, by decide, by decide, by decide, by decide⟩

/-- C2 counterexample: with `authAttempts` already at 3, a further 401
challenge is not treated as a terminal failure: no event is emitted, the
media bridge is not stopped, the call entry survives unchanged and no
INVITE is resent — only an ACK goes out. -/
theorem auth_limit_not_terminal_cex :
    (handleSIPResponse 401 7 true ⟨"15551234567", 2, 3, some 2⟩ 2).events = [] ∧
    (handleSIPResponse 401 7 true ⟨"15551234567", 2, 3, some 2⟩ 2).bridgeStopped = false ∧
    (handleSIPResponse 401 7 true ⟨"15551234567", 2, 3, some 2⟩ 2).call =
      some ⟨"15551234567", 2, 3, some 2⟩ ∧
    (handleSIPResponse 401 7 true ⟨"15551234567", 2, 3, some 2⟩ 2).inviteResent = false ∧
    ¬ ((handleSIPResponse 401 7 true ⟨"15551234567", 2, 3, some 2⟩ 2).bridgeStopped = true ∨
        SIPEvent.failed 401 ∈ (handleSIPResponse 401 7 true ⟨"15551234567", 2, 3, some 2⟩ 2).events) := by
  decide

/-- C2 amended: when the challenge limit is reached (`authAttempts ≥ 3`)
or the challenge is a duplicate under the code's guard (a truthy
`lastAuthCSeq` with a response CSeq not strictly greater), the 401/407 is
ignored: the handler only sends an ACK — it emits no event, resends no
INVITE, leaves the call entry and counters unchanged and does not tear
down the media bridge. -/
theorem auth_limit_challenge_ignored (call : SIPCall) (cs respCSeq code : Nat) (hdr : Bool)
    (hcode : code = 401 ∨ code = 407)
    (hlim : 3 ≤ call.authAttempts ∨
      (jsTruthyNat call.lastAuthCSeq = true ∧ respCSeq ≤ call.lastAuthCSeq.getD 0)) :
    handleSIPResponse code respCSeq hdr call cs = { noEffect call cs with ackSent := true } := by
  have hguard : ¬ (call.authAttempts < 3 ∧
      (¬ jsTruthyNat call.lastAuthCSeq ∨ respCSeq > call.lastAuthCSeq.getD 0)) := by
    rcases hlim with h3 | ⟨ht, hle⟩
    · rintro ⟨hlt, -⟩; omega
    · rintro ⟨-, hor | hgt⟩
      · exact hor ht
      · omega
  rcases hcode with h | h <;> subst h <;>
    · simp only [handleSIPResponse]
      norm_num
      unfold handleAuthChallenge
      rw [if_neg hguard]

/-- C2 witness: the ignored-challenge behaviour at a concrete call that
has exhausted its three attempts. -/
theorem auth_limit_challenge_ignored_w :
    handleSIPResponse 401 9 true ⟨"1", 5, 3, none⟩ 5 =
      { noEffect ⟨"1", 5, 3, none⟩ 5 with ackSent := true } :=
  auth_limit_challenge_ignored ⟨"1", 5, 3, none⟩ 5 9 401 true (Or.inl rfl)
    (Or.inl (by decide))

/-- C3 counterexample: a challenge whose CSeq (0) is not strictly greater
than `lastAuthCSeq` (also 0) does trigger another authenticated INVITE:
`!call.lastAuthCSeq` is true in JS when the stored CSeq is 0, so the
duplicate guard passes and the client resends. -/
theorem stale_zero_cseq_resend_cex :
    (0 : Nat) ≤ 0 ∧
    (handleSIPResponse 401 0 true ⟨"1", 1, 0, some 0⟩ 1).inviteResent = true := by
  decide

/-- C3 amended: once `authAttempts` has reached 3 no further 401/407
triggers a resend, whatever its CSeq; and a challenge whose CSeq is not
strictly greater than a nonzero `lastAuthCSeq` never triggers a resend
regardless of the attempt count. (When `lastAuthCSeq` is 0 the JS guard
`!call.lastAuthCSeq` is truthy-falsy and the stale-CSeq protection does
not apply.) -/
theorem auth_resend_guard (call : SIPCall) (cs respCSeq code : Nat) (hdr : Bool)
    (hcode : code = 401 ∨ code = 407) :
    (3 ≤ call.authAttempts →
      (handleSIPResponse code respCSeq hdr call cs).inviteResent = false) ∧
    (∀ n, call.lastAuthCSeq = some n → n ≠ 0 → respCSeq ≤ n →
      (handleSIPResponse code respCSeq hdr call cs).inviteResent = false) := by
  constructor
  · intro h3
    have := auth_limit_challenge_ignored call cs respCSeq code hdr hcode (Or.inl h3)
    rw [this]
    rfl
  · intro n hn hnz hle
    have := auth_limit_challenge_ignored call cs respCSeq code hdr hcode
      (Or.inr (by simp [jsTruthyNat, hn, hnz, hle]))
    rw [this]
    rfl

/-- C3 witness: no resend at attempt limit 3, and no resend for a stale
CSeq below a nonzero `lastAuthCSeq`. -/
theorem auth_resend_guard_w :
    (handleSIPResponse 407 4 true ⟨"2", 1, 3, some 5⟩ 1).inviteResent = false ∧
    (handleSIPResponse 407 4 true ⟨"2", 1, 0, some 5⟩ 1).inviteResent = false :=
  ⟨(auth_resend_guard ⟨"2", 1, 3, some 5⟩ 1 4 407 true (Or.inr rfl)).1 (by decide),
   (auth_resend_guard ⟨"2", 1, 0, some 5⟩ 1 4 407 true (Or.inr rfl)).2 5 rfl
     (by decide) (by decide)⟩

/-- C4: the timestamp is claimed to advance by 160 modulo 2^32 per sent
packet, wrapping and moving only forward. The code violates this:
`(this.timestamp + payload.length) & 0xFFFFFFFF` is ToInt32 (the mask
operand `0xFFFFFFFF` coerces to -1), so the first advance past 2^31
stores the negative value -2147483616 instead of 2147483680, and the
next transmission throws `ERR_OUT_OF_RANGE` in `writeUInt32BE` — the
pacer dies and the timestamp never wraps mod 2^32. Evaluated at the
reachable session state after 13421772 packets (timestamp 2147483520,
the last multiple of 160 below 2^31): the tick still transmits that
packet (header bytes carrying sequence number 52428 and timestamp
2147483520, sequence number advancing by 1), stores the negative
timestamp, and the following tick throws. -/
theorem rtp_timestamp_wrap_crash :
    pacerTick overflowBridge =
      some (overflowedBridge,
        some (0x80 :: 0x00 ::
          (be16 52428 ++ be32 2147483520 ++ be32 7 ++ List.replicate 160 0))) ∧
    overflowedBridge.sequenceNumber = (52428 + 1) % 65536 ∧
    overflowedBridge.timestamp = -2147483616 ∧
    ¬ (overflowedBridge.timestamp = ((2147483520 + 160) % 4294967296 : Int)) ∧
    pacerTick overflowedBridge = none := by
  refine ⟨by decide, by decide, by decide, by decide, by decide⟩

/-- C5 counterexample: the startup guard is keyed on `packetCount === 0`,
not on the first tick. With 160 bytes buffered and no packet ever sent,
the first tick sends nothing and leaves the state unchanged — and the
second tick, despite at least 160 buffered bytes, again sends nothing,
contradicting the claim that the guard applies to the very first tick
only. -/
theorem startup_guard_second_tick_cex :
    160 ≤ stalledBridge.audioBuffer.length ∧
    pacerTick stalledBridge = some (stalledBridge, none) ∧
    ((pacerTick stalledBridge).bind fun r => pacerTick r.1) = some (stalledBridge, none) := by
  refine ⟨by decide, by decide, by decide⟩

/-- C5 amended: the startup guard applies on every tick while no packet
has yet been sent (`packetCount = 0`): such a tick transmits nothing
(and changes nothing) when fewer than 480 bytes are buffered and does
transmit once at least 480 bytes are buffered; after the first packet has
been sent, and while the stored timestamp and sequence number are still
within the ranges `writeUInt32BE`/`writeUInt16BE` accept (the timestamp
leaves that range at the 2^31 crossing, after which the tick throws
instead of transmitting), a tick transmits exactly when at least 160
bytes are buffered. -/
theorem startup_guard_until_first_packet (s : RTPState) (hrun : s.isRunning = true)
    (hts0 : 0 ≤ s.timestamp) (hts1 : s.timestamp ≤ 4294967295)
    (hseq : s.sequenceNumber ≤ 65535) :
    (s.packetCount = 0 ∧ s.audioBuffer.length < 480 → pacerTick s = some (s, none)) ∧
    (s.packetCount = 0 ∧ 480 ≤ s.audioBuffer.length →
      ((pacerTick s).bind Prod.snd).isSome = true) ∧
    (0 < s.packetCount →
      (((pacerTick s).bind Prod.snd).isSome = true ↔ 160 ≤ s.audioBuffer.length)) := by
  refine ⟨?_, ?_, ?_⟩
  · rintro ⟨hp, hl⟩
    simp [pacerTick, hrun, hp, hl]
  · rintro ⟨hp, hl⟩
    have h160 : 160 ≤ s.audioBuffer.length := by omega
    have hguard : ¬ (s.packetCount = 0 ∧ s.audioBuffer.length < 480) := by
      rintro ⟨-, hc⟩; omega
    simp [pacerTick, sendRTPPacket, hrun, hguard, h160, hts0, hts1, hseq]
  · intro hp
    have hguard : ¬ (s.packetCount = 0 ∧ s.audioBuffer.length < 480) := by
      rintro ⟨hc, -⟩; omega
    by_cases h160 : 160 ≤ s.audioBuffer.length <;>
      simp [pacerTick, sendRTPPacket, hrun, hguard, h160, hts0, hts1, hseq]

/-- C5 witness: the stalled state (160 buffered bytes, nothing sent yet)
is left unchanged by a tick, and the same state after its first packet
transmits on a tick exactly when 160 bytes are available. -/
theorem startup_guard_until_first_packet_w :
    pacerTick stalledBridge = some (stalledBridge, none) ∧
    (((pacerTick pacedBridge).bind Prod.snd).isSome = true ↔
      160 ≤ pacedBridge.audioBuffer.length) :=
  ⟨(startup_guard_until_first_packet stalledBridge rfl (by decide) (by decide)
      (by decide)).1 ⟨rfl, by decide⟩,
   (startup_guard_until_first_packet pacedBridge rfl (by decide) (by decide)
      (by decide)).2.2 (by decide)⟩

/-- C6: `stop` is claimed to be idempotent, a second invocation on an
already-stopped bridge succeeding without error. The code violates this:
`stop` calls `socket.close()` unconditionally, and Node's dgram socket
throws `ERR_SOCKET_DGRAM_NOT_RUNNING` when closed again, so while the
first `stop` on a started bridge succeeds (running flag down, pacer
cancelled, socket closed, buffer cleared), the second one raises instead
of succeeding. -/
theorem stop_twice_throws :
    stop idleBridge =
      some { idleBridge with
              isRunning := false
              pacerTimer := false
              socketOpen := false
              audioBuffer := [] } ∧
    ((stop idleBridge).bind stop) = none := by
  refine ⟨by decide, by decide⟩

/-- C7: the encoder emits exactly one mu-law byte for every 4 input bytes
(rounded down) and the decoder emits exactly 4 PCM bytes for every mu-law
input byte. -/
theorem transcoder_output_lengths (pcm mu : List Nat) :
    (pcm16ToMuLaw8 pcm).length = pcm.length / 4 ∧
    (muLaw8ToPcm16 mu).length = mu.length * 4 := by
  constructor
  · rw [pcm16ToMuLaw8]
    rw [List.length_map, List.length_range]
    omega
  · rw [muLaw8ToPcm16, resample8To16_length, writePcmLE_length, List.length_map]
    ring

/-- C8: the digest response computed by `handleAuthentication` equals the
RFC 2617 value for every challenge, and on the concrete test vector
(username alice, password secret, realm example.com, nonce abc123, uri
sip:bob@example.com, no qop) it equals the direct computation
`MD5(MD5(alice:example.com:secret):abc123:MD5(INVITE:sip:bob@example.com))`,
whose value is d4fcea5330184d6bcdc5eb55cd75ecbc. -/
theorem digest_matches_rfc2617 :
    (∀ u p r n uri qop c,
      computeDigestResponse u p r n uri qop c = rfc2617DigestResponse u p r n uri qop c) ∧
    computeDigestResponse "alice" "secret" "example.com" "abc123" "sip:bob@example.com" none "" =
      md5Hex (md5Hex "alice:example.com:secret" ++ (":abc123:" ++ md5Hex "INVITE:sip:bob@example.com")) ∧
    computeDigestResponse "alice" "secret" "example.com" "abc123" "sip:bob@example.com" none "" =
      "d4fcea5330184d6bcdc5eb55cd75ecbc" := by
  refine ⟨?_, by decide, by decide⟩
  intro u p r n uri qop c
  by_cases hq : qop = some "auth"
  · simp only [computeDigestResponse, rfc2617DigestResponse, if_pos hq]
    exact congrArg md5Hex (by simp [String.append_assoc, colon_nc_colon, colon_auth_colon])
  · simp only [computeDigestResponse, rfc2617DigestResponse, if_neg hq]
    rfl

/-- C9: an inbound datagram shorter than 12 bytes, or whose payload type
(the low 7 bits of header byte 1) is not 0, is silently dropped: no audio
frame is emitted and the bridge state is unchanged. -/
theorem rtp_receive_drop (s : RTPState) (pkt : List Nat)
    (h : pkt.length < 12 ∨ pkt.getD 1 0 &&& 0x7F ≠ 0) :
    handleRTPPacket s pkt = (s, none) := by
  unfold handleRTPPacket
  rcases h with h | h
  · rw [if_pos h]
  · by_cases hl : pkt.length < 12
    · rw [if_pos hl]
    · rw [if_neg hl, if_pos h]

/-- C9 witness: a 3-byte datagram and a 14-byte datagram with payload
type 8 (PCMA) are both dropped without effect. -/
theorem rtp_receive_drop_w :
    handleRTPPacket idleBridge [1, 2, 3] = (idleBridge, none) ∧
    handleRTPPacket idleBridge [0x80, 8, 0, 1, 0, 0, 0, 0, 0, 0, 0, 7, 5, 5] =
      (idleBridge, none) :=
  ⟨rtp_receive_drop idleBridge [1, 2, 3] (Or.inl (by decide)),
   rtp_receive_drop idleBridge [0x80, 8, 0, 1, 0, 0, 0, 0, 0, 0, 0, 7, 5, 5]
     (Or.inr (by decide))⟩

/-- C10: audio pushed while the bridge is not running, or before a remote
address and port have been set, is discarded: `sendAudio` returns the
state unchanged, so nothing is queued for later transmission. -/
theorem sendAudio_noop_when_not_ready (s : RTPState) (pcm : List Nat)
    (h : s.isRunning = false ∨ s.remoteAddress = none ∨ s.remotePort = none) :
    sendAudio s pcm = s := by
  unfold sendAudio
  rw [if_pos]
  rcases h with h | h | h <;> simp [jsTruthyStr, jsTruthyNat, h]

/-- C10 witness: a stopped bridge and a bridge with no remote destination
both discard pushed audio. -/
theorem sendAudio_noop_when_not_ready_w :
    sendAudio stoppedBridge [1, 2, 3, 4] = stoppedBridge ∧
    sendAudio { idleBridge with remoteAddress := none } [1, 2, 3, 4] =
      { idleBridge with remoteAddress := none } :=
  ⟨sendAudio_noop_when_not_ready stoppedBridge [1, 2, 3, 4] (Or.inl rfl),
   sendAudio_noop_when_not_ready { idleBridge with remoteAddress := none } [1, 2, 3, 4]
     (Or.inr (Or.inl rfl))⟩

end VoiceAgent
